import Mathlib

/-!
Verification of the link-discovery, selection and streaming-analysis pipeline
of the analyzer repository.

The embedding models the TypeScript sources at the character/record level:

* JS string primitives (`includes`, `trim`, `toLowerCase`, `slice`,
  `startsWith`) are implemented on `List Char` so that every definition is
  executable and kernel-reducible.
* DOM parsing (JSDOM) is external input: the extractor is modelled from the
  anchor list JSDOM would produce, exactly as `parseLinks` consumes it.
* Network and oracle (LLM) calls are external input: each call site takes the
  outcome of the call as a parameter shaped like the value the TypeScript
  code observes (`Except` for throwing fetches, `Option` for the
  never-throwing model-fallback layer).
-/

/-- Whitespace test used by the character-level model of `String.prototype.trim`. -/
def jsIsWs (c : Char) : Bool :=
  c == ' ' || c == '\t' || c == '\n' || c == '\r'

/-- Character-level model of `s.trim()` (JS): drop leading and trailing whitespace. -/
def jsTrim (s : String) : String :=
  String.mk (((s.toList.dropWhile jsIsWs).reverse.dropWhile jsIsWs).reverse)

/-- Character-level model of `s.toLowerCase()` (JS, ASCII range). -/
def jsToLower (s : String) : String :=
  String.mk (s.toList.map Char.toLower)

/-- Character-level model of `s.toUpperCase()` (JS, ASCII range). -/
def jsToUpper (s : String) : String :=
  String.mk (s.toList.map Char.toUpper)

/-- Does `n` occur as a leading segment of `l`? Helper for `hasSubstrChars`. -/
def startsWithChars : List Char → List Char → Bool
  | [], _ => true
  | _ :: _, [] => false
  | a :: as, b :: bs => a == b && startsWithChars as bs

/-- Does `needle` occur contiguously inside `l`? Helper for `jsIncludes`. -/
def hasSubstrChars : List Char → List Char → Bool
  | l, needle =>
    match l with
    | [] => startsWithChars needle []
    | _ :: rest => startsWithChars needle l || hasSubstrChars rest needle

/-- Character-level model of `h.includes(n)` (JS substring containment). -/
def jsIncludes (h n : String) : Bool :=
  hasSubstrChars h.toList n.toList

/-- Character-level model of `s.startsWith(p)` (JS). -/
def jsStartsWith (s p : String) : Bool :=
  startsWithChars p.toList s.toList

/-- Character-level model of `s.slice(0, n)` (JS): first `n` characters. -/
def jsSlice (s : String) (n : Nat) : String :=
  String.mk (s.toList.take n)

/-- Number of characters of a JS string (`s.length` on ASCII content). -/
def jsLen (s : String) : Nat :=
  s.toList.length

theorem startsWithChars_iff (n l : List Char) :
    startsWithChars n l = true ↔ ∃ t, l = n ++ t := by
  induction n generalizing l with
  | nil => simp [startsWithChars]
  | cons a as ih =>
    cases l with
    | nil => simp [startsWithChars]
    | cons b bs =>
      simp only [startsWithChars, Bool.and_eq_true, beq_iff_eq, ih, List.cons_append,
        List.cons.injEq]
      constructor
      · rintro ⟨rfl, t, rfl⟩
        exact ⟨t, rfl, rfl⟩
      · rintro ⟨t, rfl, rfl⟩
        exact ⟨rfl, t, rfl⟩

theorem hasSubstrChars_iff (l n : List Char) :
    hasSubstrChars l n = true ↔ ∃ s t, l = s ++ (n ++ t) := by
  induction l with
  | nil =>
    simp only [hasSubstrChars, startsWithChars_iff]
    constructor
    · rintro ⟨t, ht⟩
      cases n with
      | nil => exact ⟨[], t, by simpa using ht⟩
      | cons a as => simp at ht
    · rintro ⟨s, t, h⟩
      cases s with
      | nil => exact ⟨t, by simpa using h⟩
      | cons b bs => simp at h
  | cons a rest ih =>
    simp only [hasSubstrChars, Bool.or_eq_true, startsWithChars_iff, ih]
    constructor
    · rintro (⟨t, ht⟩ | ⟨s, t, rfl⟩)
      · exact ⟨[], t, by simpa using ht⟩
      · exact ⟨a :: s, t, rfl⟩
    · rintro ⟨s, t, h⟩
      cases s with
      | nil => exact Or.inl ⟨t, by simpa using h⟩
      | cons b bs =>
        simp only [List.cons_append, List.cons.injEq] at h
        exact Or.inr ⟨bs, t, h.2⟩

theorem jsIncludes_iff (h n : String) :
    jsIncludes h n = true ↔ ∃ s t, h.toList = s ++ (n.toList ++ t) := by
  simp [jsIncludes, hasSubstrChars_iff]

/-!
Link classifier of `src/app/api/parse-homepage/route.ts` (`POST`).
Lists transcribed verbatim from the source.
-/

/-- Classification buckets of the parse-homepage route (`ExtractedLink.category`). -/
inductive LinkCategory where
  | likelyCategory
  | likelyProduct
  | other
deriving DecidableEq, Repr

/-- Keyword list `categoryKeywords` from `src/app/api/parse-homepage/route.ts`. -/
def categoryKeywords : List String :=
  ["collection", "category", "shop", "browse", "products", "catalog",
   "men", "women", "kids", "baby", "home", "kitchen", "bedroom",
   "clothing", "shoes", "accessories", "electronics", "books",
   "outdoor", "sports", "beauty", "health", "jewelry", "watches",
   "bags", "furniture", "decor", "garden", "tools", "automotive"]

/-- URL pattern list `categoryUrlPatterns` from `src/app/api/parse-homepage/route.ts`. -/
def categoryUrlPatterns : List String :=
  ["/collections/", "/categories/", "/category/", "/shop/", "/browse/",
   "/men/", "/women/", "/kids/", "/baby/", "/home/", "/kitchen/",
   "/clothing/", "/shoes/", "/accessories/", "/electronics/", "/books/"]

/-- URL pattern list `productUrlPatterns` from `src/app/api/parse-homepage/route.ts`. -/
def productUrlPatterns : List String :=
  ["/products/", "/product/", "/item/", "/items/", "/p/"]

/-- Classification of one anchor `(href, text)` in the parse-homepage route:
category keywords (over lowered text or href) or category URL patterns first,
then product URL patterns, else `other`. -/
def classifyLink (href text : String) : LinkCategory :=
  let lowerText := jsToLower text
  let lowerHref := jsToLower href
  if (categoryKeywords.any fun k => jsIncludes lowerText k || jsIncludes lowerHref k) ||
      (categoryUrlPatterns.any fun p => jsIncludes lowerHref p) then
    .likelyCategory
  else if productUrlPatterns.any fun p => jsIncludes lowerHref p then
    .likelyProduct
  else
    .other

theorem jsIncludes_products_of_slash (s : String)
    (h : jsIncludes s "/products/" = true) : jsIncludes s "products" = true := by
  rw [jsIncludes_iff] at h ⊢
  obtain ⟨a, b, hab⟩ := h
  refine ⟨a ++ ['/'], '/' :: b, ?_⟩
  have hpat : ("/products/" : String).toList =
      '/' :: (("products" : String).toList ++ ['/']) := by decide
  rw [hab, hpat]
  simp

/-- C6: every link is classified into exactly one of category, product, other,
and a URL matching a category URL pattern is always classified category (the
category check precedes the product check), even when a product URL pattern
also matches. -/
theorem c6_category_check_precedes_product (href text : String) :
    (classifyLink href text = .likelyCategory ∨
      classifyLink href text = .likelyProduct ∨
      classifyLink href text = .other) ∧
    ((categoryUrlPatterns.any fun p => jsIncludes (jsToLower href) p) = true →
      classifyLink href text = .likelyCategory) := by
  constructor
  · simp only [classifyLink]
    split
    · exact Or.inl rfl
    · split
      · exact Or.inr (Or.inl rfl)
      · exact Or.inr (Or.inr rfl)
  · intro h
    simp [classifyLink, h]

/-- Witness for C6: a URL containing both the category pattern `/shop/` and the
product pattern `/products/` is classified category. -/
theorem c6_witness :
    classifyLink "https://x.com/shop/products/1" "Sale" = .likelyCategory :=
  (c6_category_check_precedes_product "https://x.com/shop/products/1" "Sale").2 (by decide)

/-- C10: a URL containing the substring `products` is always classified
category (because `products` is a category keyword matched against the URL),
and a link classified product necessarily matches one of the patterns
`/product/`, `/item/`, `/items/`, `/p/` while its URL contains no category
keyword at all. -/
theorem c10_products_url_is_category (href text : String) :
    (jsIncludes (jsToLower href) "products" = true →
      classifyLink href text = .likelyCategory) ∧
    (classifyLink href text = .likelyProduct →
      ((["/product/", "/item/", "/items/", "/p/"].any fun p =>
          jsIncludes (jsToLower href) p) = true ∧
        (categoryKeywords.all fun k => !jsIncludes (jsToLower href) k) = true)) := by
  constructor
  · intro h
    have hA : (categoryKeywords.any fun k =>
        jsIncludes (jsToLower text) k || jsIncludes (jsToLower href) k) = true := by
      refine List.any_eq_true.mpr ⟨"products", by decide, ?_⟩
      simp [h]
    simp [classifyLink, hA]
  · intro h
    by_cases hc : ((categoryKeywords.any fun k =>
        jsIncludes (jsToLower text) k || jsIncludes (jsToLower href) k) ||
        (categoryUrlPatterns.any fun p => jsIncludes (jsToLower href) p)) = true
    · simp [classifyLink, hc] at h
    · have hc' := Bool.or_eq_false_iff.mp (Bool.eq_false_iff.mpr hc)
      have hA := List.any_eq_false.mp hc'.1
      have hkw : ∀ k ∈ categoryKeywords, jsIncludes (jsToLower href) k = false := by
        intro k hk
        have := hA k hk
        simp only [Bool.or_eq_true, not_or] at this
        exact Bool.eq_false_iff.mpr this.2
      have hP : (productUrlPatterns.any fun p => jsIncludes (jsToLower href) p) = true := by
        by_contra hP
        simp [classifyLink, hc'.1, hc'.2, Bool.eq_false_iff.mpr hP] at h
      have hprod : jsIncludes (jsToLower href) "products" = false :=
        hkw "products" (by decide)
      have hslash : jsIncludes (jsToLower href) "/products/" = false := by
        by_contra hs
        rw [jsIncludes_products_of_slash _ (Bool.of_not_eq_false hs)] at hprod
        simp at hprod
      constructor
      · simp only [productUrlPatterns, List.any_cons, List.any_nil, hslash,
          Bool.false_or, Bool.or_false] at hP
        simpa [List.any_cons, List.any_nil, Bool.or_false] using hP
      · exact List.all_eq_true.mpr fun k hk => by simp [hkw k hk]

/-- Witness for C10: a `/products/` URL is classified category, and an `/item/`
URL with no category keyword is the shape required for the product bucket. -/
theorem c10_witness :
    classifyLink "https://x.com/products/red-mug" "Red mug" = .likelyCategory ∧
    ((["/product/", "/item/", "/items/", "/p/"].any fun p =>
        jsIncludes (jsToLower "https://x.com/item/42") p) = true ∧
      (categoryKeywords.all fun k =>
        !jsIncludes (jsToLower "https://x.com/item/42") k) = true) :=
  ⟨(c10_products_url_is_category "https://x.com/products/red-mug" "Red mug").1 (by decide),
    (c10_products_url_is_category "https://x.com/item/42" "Buy it").2 (by decide)⟩

/-!
HTML link extractor `parseLinks` of the streaming route
(`src/unnamed/part_002`, lines 109-139). JSDOM parsing of the raw HTML is
external; the embedding starts from the anchor elements JSDOM yields and
models the route's own mapping and filtering. The `aria-label` / `title`
fallback chain of the anchor text is `(a.textContent || '') || ariaLabel ||
title || ''` in the source: the first truthy (non-empty) value wins.
-/

/-- One `<a>` element as JSDOM presents it to `parseLinks`: resolved `href`,
text content, and the two fallback attributes (absent = `none`). -/
structure Anchor where
  href : String
  textContent : String
  ariaLabel : Option String
  titleAttr : Option String
deriving DecidableEq, Repr

/-- The `Link` record of the routes: `{ url, text }`. -/
structure Link where
  url : String
  text : String
deriving DecidableEq, Repr

/-- JS truthiness chain `(a.textContent || '') || a.getAttribute('aria-label')
|| a.getAttribute('title') || ''`. -/
def anchorLabel (a : Anchor) : String :=
  if a.textContent ≠ "" then a.textContent
  else match a.ariaLabel with
    | some s => if s ≠ "" then s else (a.titleAttr.getD "")
    | none => a.titleAttr.getD ""

/-- `parseLinks` of the streaming route: map every anchor to
`{url := href.trim, text := label.trim}` and keep the links whose url starts
with `http`. No deduplication is performed here. -/
def parseLinks (anchors : List Anchor) : List Link :=
  (anchors.map fun a => { url := jsTrim a.href, text := jsTrim (anchorLabel a) })
    |>.filter fun l => jsStartsWith l.url "http"

/-!
Candidate selection and oracle-assisted ranking of the streaming route
(`src/unnamed/part_002`, `GET`).
-/

/-- `COLLECTION_PATTERNS` of the streaming route. -/
def COLLECTION_PATTERNS : List String :=
  ["/collections/", "/category/", "/categories/", "/shop/", "/browse/"]

/-- `PRODUCT_PATTERNS` of the streaming route. -/
def PRODUCT_PATTERNS : List String :=
  ["/products/", "/product/", "/item/", "/items/", "/p/"]

/-- Loop picking the first 3 collection links (pattern match on the lowered
URL, dedup via the `seen` set, break once 3 are collected). -/
def pickCollectionsGo : List Link → List String → List Link → List Link
  | [], _, acc => acc.reverse
  | l :: rest, seen, acc =>
    if acc.length ≥ 3 then acc.reverse
    else if (COLLECTION_PATTERNS.any fun p => jsIncludes (jsToLower l.url) p) &&
        !seen.contains l.url then
      pickCollectionsGo rest (l.url :: seen) (l :: acc)
    else
      pickCollectionsGo rest seen acc

/-- First 3 collection links of the homepage link list. -/
def pickCollections (links : List Link) : List Link :=
  pickCollectionsGo links [] []

/-- Loop collecting the product links of one collection page (pattern match on
the lowered URL, dedup via the `seenProd` set, no cap). -/
def pickProductsGo : List Link → List String → List Link → List Link
  | [], _, acc => acc.reverse
  | l :: rest, seen, acc =>
    if (PRODUCT_PATTERNS.any fun p => jsIncludes (jsToLower l.url) p) &&
        !seen.contains l.url then
      pickProductsGo rest (l.url :: seen) (l :: acc)
    else
      pickProductsGo rest seen acc

/-- Product links of one collection page. -/
def pickProducts (links : List Link) : List Link :=
  pickProductsGo links [] []

/-- One entry of the oracle's `topProducts` answer. -/
structure TopProduct where
  url : String
  title : String
  reason : Option String
deriving DecidableEq, Repr

/-- `CollectionGroup` of the routes. -/
structure CollectionGroup where
  collection : Link
  products : List Link
deriving DecidableEq, Repr

/-- Ranking-oracle outcome as `tryOpenAIChatJson` delivers it: outer `none`
means every model failed (`result: null`); the inner option is the optional
`topProducts` field of the parsed JSON. -/
def RankOutcome : Type := Option (Option (List TopProduct))

/-- `(result?.topProducts || []).slice(0, 10)` of the streaming route. -/
def rawTopProducts (o : RankOutcome) : List TopProduct :=
  ((o.bind id).getD []).take 10

/-- The url list actually sent to the oracle:
`productLinks.map(p => p.url).slice(0, 100)`. -/
def urlListSent (productLinks : List Link) : List String :=
  (productLinks.map Link.url).take 100

/-- Post-oracle validation of the streaming route: keep only returned products
whose url is a member of the original candidate url set. -/
def validatedTopProducts (productLinks : List Link) (o : RankOutcome) : List TopProduct :=
  (rawTopProducts o).filter fun p => (productLinks.map Link.url).contains p.url

/-- C7 (amended): every link the extractor returns has a url that starts with
the prefix `http` (which is how the route approximates absolute http(s) URLs). -/
theorem c7_extractor_keeps_http_urls (anchors : List Anchor) (l : Link)
    (hl : l ∈ parseLinks anchors) : jsStartsWith l.url "http" = true := by
  simp only [parseLinks] at hl
  exact (List.mem_filter.mp hl).2

/-- Witness for C7 at a one-anchor input. -/
theorem c7_witness :
    jsStartsWith (Link.url { url := "http://x.com/a", text := "t" }) "http" = true :=
  c7_extractor_keeps_http_urls
    [{ href := "http://x.com/a", textContent := "t", ariaLabel := none, titleAttr := none }]
    { url := "http://x.com/a", text := "t" } (by decide)

/-- Counterexample to C7 as stated: two identical anchors produce two extractor
entries with the same url — `parseLinks` performs no deduplication. -/
theorem c7_counterexample :
    (parseLinks
        [{ href := "http://x.com/a", textContent := "t", ariaLabel := none, titleAttr := none },
         { href := "http://x.com/a", textContent := "t", ariaLabel := none, titleAttr := none }]).map
        Link.url = ["http://x.com/a", "http://x.com/a"] ∧
    ¬ ((parseLinks
        [{ href := "http://x.com/a", textContent := "t", ariaLabel := none, titleAttr := none },
         { href := "http://x.com/a", textContent := "t", ariaLabel := none, titleAttr := none }]).map
        Link.url).Nodup := by
  constructor
  · decide
  · decide

/-- C1 (amended): every url in the validated top-product selection is
byte-identical to the url of some member of the full original candidate set
(membership is checked against all discovered candidates, not only the 100
shown to the oracle). -/
theorem c1_validated_subset_of_candidates (productLinks : List Link) (o : RankOutcome)
    (p : TopProduct) (hp : p ∈ validatedTopProducts productLinks o) :
    p.url ∈ productLinks.map Link.url := by
  simp only [validatedTopProducts] at hp
  have h := (List.mem_filter.mp hp).2
  simpa using h

/-- Witness for C1: a valid oracle answer over a one-candidate set. -/
theorem c1_witness :
    TopProduct.url { url := "https://s.com/products/a", title := "T", reason := none } ∈
      ([{ url := "https://s.com/products/a", text := "A" }] : List Link).map Link.url :=
  c1_validated_subset_of_candidates
    [{ url := "https://s.com/products/a", text := "A" }]
    (some (some [{ url := "https://s.com/products/a", title := "T", reason := none }]))
    { url := "https://s.com/products/a", title := "T", reason := none } (by decide)

/-- Candidate set with 101 distinct product urls. -/
def c1CandidateLinks : List Link :=
  (List.range 101).map fun n => { url := "https://s.com/products/" ++ toString n, text := "" }

/-- Counterexample to C1 as stated: with 101 candidates only the first 100 urls
are sent to the oracle, yet an answer naming candidate number 100 — a url the
oracle was never shown — passes validation and is surfaced downstream. -/
theorem c1_counterexample :
    (validatedTopProducts c1CandidateLinks
        (some (some [{ url := "https://s.com/products/100", title := "t", reason := none }]))).map
        TopProduct.url = ["https://s.com/products/100"] ∧
    "https://s.com/products/100" ∉ urlListSent c1CandidateLinks := by
  constructor
  · decide
  · decide

/-!
Content builders of `inferBrandPositioning`
(`src/app/lib/inferBrandPositioning.ts`) and of the streaming consolidated
analyzer (`src/unnamed/part_006`, `analyzeConsolidatedStreaming`).
-/

/-- `PageContent` of the pipeline (`pageType` is the string `product` or
`category` in the source). -/
structure PageContent where
  url : String
  pageType : String
  content : String
deriving DecidableEq, Repr

/-- `DigitalSource` of `gatherDigitalSources` (`src/unnamed/part_003`). -/
structure DigitalSource where
  type : String
  source : String
  content : String
  url : String
deriving DecidableEq, Repr

/-- `createDigitalSource` of `gatherDigitalSources` (`src/unnamed/part_003`). -/
def createDigitalSource (type source content url : String) : DigitalSource :=
  { type := type, source := source, content := content, url := url }

/-- `Array.prototype.join('\n\n---\n\n')` over the formatted entries. -/
def sepJoin : List String → String
  | [] => ""
  | [x] => x
  | x :: y :: xs => x ++ "\n\n---\n\n" ++ sepJoin (y :: xs)

/-- Header `` `${page.pageType.toUpperCase()} PAGE - ${page.url}:\n` `` used by
both content builders. -/
def pageHeader (p : PageContent) : String :=
  jsToUpper p.pageType ++ " PAGE - " ++ p.url ++ ":\n"

/-- Header `` `${source.type.toUpperCase()} - ${source.source}:\n` ``. -/
def sourceHeader (s : DigitalSource) : String :=
  jsToUpper s.type ++ " - " ++ s.source ++ ":\n"

/-- Website content of the positioning prompt: full page contents are joined
and then the whole string is cut to its first 8000 characters
(`.join(...).slice(0, 8000)` in `inferBrandPositioning`). -/
def posWebsiteContent (pages : List PageContent) : String :=
  jsSlice (sepJoin (pages.map fun p => pageHeader p ++ p.content)) 8000

/-- Digital-source content of the positioning prompt, cut as a whole to 4000
characters (`.join(...).slice(0, 4000)` in `inferBrandPositioning`). -/
def posDigitalContent (sources : List DigitalSource) : String :=
  jsSlice (sepJoin (sources.map fun s => sourceHeader s ++ s.content)) 4000

/-- `Math.max(2000, Math.floor(20000 / pageContents.length))` of the streaming
analyzer (the pipeline guarantees a non-empty page list at this point; JS
division by zero would yield Infinity, Nat division yields 0). -/
def maxContentPerPage (n : Nat) : Nat :=
  max 2000 (20000 / n)

/-- `Math.max(1000, Math.floor(8000 / Math.max(1, digitalSources.length)))`. -/
def maxDigitalPerSource (n : Nat) : Nat :=
  max 1000 (8000 / (max 1 n))

/-- Website content of the scoring prompts: each page is truncated to the
per-page budget before joining (`analyzeConsolidatedStreaming`). -/
def scoringWebsiteContent (pages : List PageContent) : String :=
  sepJoin (pages.map fun p => pageHeader p ++ jsSlice p.content (maxContentPerPage pages.length))

/-- Digital content of the scoring prompts, truncated per source. -/
def scoringDigitalContent (sources : List DigitalSource) : String :=
  sepJoin (sources.map fun s =>
    sourceHeader s ++ jsSlice s.content (maxDigitalPerSource sources.length))

/-- Positioning website content as claim C8 words it (comparison definition
written from the spec sentence, not from the source): the even per-page
character budget with floor 2000 out of 20000 applied before concatenation. -/
def claimedPositioningWebsiteContent (pages : List PageContent) : String :=
  sepJoin (pages.map fun p => pageHeader p ++ jsSlice p.content (maxContentPerPage pages.length))

theorem jsLen_jsSlice (s : String) (n : Nat) : jsLen (jsSlice s n) = min n (jsLen s) := by
  simp [jsLen, jsSlice, String.toList]

theorem jsLen_append (s t : String) : jsLen (s ++ t) = jsLen s + jsLen t := by
  simp [jsLen, String.toList]

/-- C8 (amended): positioning inference truncates the concatenated page
content as a whole to 8000 characters and the concatenated digital-source
content as a whole to 4000 characters; per-page budgets do not apply here. -/
theorem c8_positioning_truncates_totals (pages : List PageContent)
    (sources : List DigitalSource) :
    jsLen (posWebsiteContent pages) ≤ 8000 ∧ jsLen (posDigitalContent sources) ≤ 4000 := by
  constructor
  · rw [posWebsiteContent, jsLen_jsSlice]
    exact Nat.min_le_left _ _
  · rw [posDigitalContent, jsLen_jsSlice]
    exact Nat.min_le_left _ _

/-- A single 9000-character page. -/
def c8BigPage : PageContent :=
  { url := "u", pageType := "product", content := String.mk (List.replicate 9000 'a') }

/-- Counterexample to C8 as stated: on a single 9000-character page the
positioning builder keeps only 8000 characters in total, while the claimed
per-page budget (floor 2000 from a 20000 total) would keep all 9018. -/
theorem c8_counterexample :
    jsLen (posWebsiteContent [c8BigPage]) = 8000 ∧
    jsLen (claimedPositioningWebsiteContent [c8BigPage]) = 9018 ∧
    posWebsiteContent [c8BigPage] ≠ claimedPositioningWebsiteContent [c8BigPage] := by
  have hh : jsLen (pageHeader c8BigPage) = 18 := by decide
  have hc : jsLen c8BigPage.content = 9000 := by
    have he : jsLen c8BigPage.content = (List.replicate 9000 'a').length := rfl
    rw [he, List.length_replicate]
  have h1 : jsLen (posWebsiteContent [c8BigPage]) = 8000 := by
    rw [posWebsiteContent]
    simp only [List.map_cons, List.map_nil, sepJoin]
    rw [jsLen_jsSlice, jsLen_append, hh, hc]
    decide
  have h2 : jsLen (claimedPositioningWebsiteContent [c8BigPage]) = 9018 := by
    rw [claimedPositioningWebsiteContent]
    simp only [List.map_cons, List.map_nil, sepJoin, List.length_cons, List.length_nil]
    rw [jsLen_append, jsLen_jsSlice, hh, hc]
    decide
  refine ⟨h1, h2, fun h => ?_⟩
  rw [h, h2] at h1
  exact absurd h1 (by decide)

/-!
Model-fallback layer `tryOpenAIChatJson` (`src/app/lib/aiModel.ts`). The
per-model completion call plus JSON parse is external: `outcome m = some v`
models a call to model `m` that returned and parsed (an empty content string
parses to the empty object, still a success); `outcome m = none` models any
exception (API error, non-2xx, parse failure), which the source catches and
answers by moving to the next model.
-/

/-- Process-lifetime state of `aiModel.ts`: `cachedPreferredModel` and the
`failedModels` negative cache. -/
structure AiState where
  cachedPreferredModel : Option String
  failedModels : List String
deriving Repr

/-- The state of a fresh process: no preferred model, no failed models. -/
def freshAiState : AiState :=
  { cachedPreferredModel := none, failedModels := [] }

/-- Value returned by `tryOpenAIChatJson`: `result` (null on exhaustion),
`modelUsed`, and the typed `error` field set only on exhaustion. -/
structure AiReply (α : Type) where
  result : Option α
  modelUsed : Option String
  error : Option String
deriving Repr

/-- Candidate order used by one call: known-failed models are dropped from the
candidate list and the cached preferred model, when set, is moved to front. -/
def modelsToTry (st : AiState) (candidates : List String) : List String :=
  let base := candidates.filter fun m => !st.failedModels.contains m
  match st.cachedPreferredModel with
  | some p => p :: base.filter fun m => m ≠ p
  | none => base

/-- The `for (const model of models)` loop of `tryOpenAIChatJson`: on success
return the parsed value and remember the model; on failure add the model to
the negative cache and continue; after the loop return the typed failure. -/
def tryModelsGo (outcome : String → Option α) :
    List String → AiState → AiReply α × AiState
  | [], st => ({ result := none, modelUsed := none, error := some "All models failed" }, st)
  | m :: rest, st =>
    match outcome m with
    | some v =>
      ({ result := some v, modelUsed := some m, error := none },
        { st with cachedPreferredModel := some m })
    | none => tryModelsGo outcome rest { st with failedModels := m :: st.failedModels }

/-- `tryOpenAIChatJson` of `src/app/lib/aiModel.ts`, over the configured
candidate list and the current process state. -/
def tryOpenAIChatJson (st : AiState) (candidates : List String)
    (outcome : String → Option α) : AiReply α × AiState :=
  tryModelsGo outcome (modelsToTry st candidates) st

/-- First candidate, in list order, whose call succeeds — the behaviour the
spec describes for the fallback layer (comparison definition). -/
def specFirstSuccess (outcome : String → Option α) : List String → Option (String × α)
  | [] => none
  | m :: rest =>
    match outcome m with
    | some v => some (m, v)
    | none => specFirstSuccess outcome rest

theorem tryModelsGo_spec (outcome : String → Option α) (models : List String)
    (st : AiState) :
    (match specFirstSuccess outcome models with
      | some (m, v) =>
        (tryModelsGo outcome models st).1 =
          { result := some v, modelUsed := some m, error := none }
      | none =>
        (tryModelsGo outcome models st).1 =
          { result := none, modelUsed := none, error := some "All models failed" }) := by
  induction models generalizing st with
  | nil => simp [specFirstSuccess, tryModelsGo]
  | cons m rest ih =>
    cases h : outcome m with
    | some v => simp [specFirstSuccess, tryModelsGo, h]
    | none =>
      have := ih { st with failedModels := m :: st.failedModels }
      simpa [specFirstSuccess, tryModelsGo, h] using this

theorem modelsToTry_fresh (candidates : List String) :
    modelsToTry freshAiState candidates = candidates := by
  simp only [modelsToTry, freshAiState]
  exact List.filter_eq_self.mpr fun a _ => rfl

/-- C9: in a fresh process the fallback layer tries the candidate models in
order and returns the first outcome that completes and parses; when every
candidate fails it returns the typed failure `{result: null, error}` — by
construction no exception escapes (every branch returns a value). -/
theorem c9_fallback_first_success (candidates : List String)
    (outcome : String → Option α) :
    (match specFirstSuccess outcome candidates with
      | some (m, v) =>
        (tryOpenAIChatJson freshAiState candidates outcome).1 =
          { result := some v, modelUsed := some m, error := none }
      | none =>
        (tryOpenAIChatJson freshAiState candidates outcome).1 =
          { result := none, modelUsed := none, error := some "All models failed" }) := by
  rw [tryOpenAIChatJson, modelsToTry_fresh]
  exact tryModelsGo_spec outcome candidates freshAiState

/-!
Streaming consolidated analyzer (`src/unnamed/part_006`,
`analyzeConsolidatedStreaming`, first revision: parallel category calls) and
the streaming route (`src/unnamed/part_002`, `GET`).

The three scoring calls run concurrently; their completion order is
unconstrained, so the event trace is parameterized by `complOrder`, the order
in which the three promises settle (always a permutation of the category
list), alongside `shuffled`, the randomized processing order reported by the
`randomization` event. The per-category oracle call is `scoreCategory`, which
itself never throws when `tryOpenAIChatJson` returns its typed failure; the
`thrown` outcome models `scoreCategory` rejecting with an exception, which the
orchestrator catches per category. Prompt text built from the page contents
feeds the oracle and does not appear in any event, so events do not depend on
it. The product-image extraction of the route decorates the `complete`
payload shown to the client and is omitted here.
-/

/-- One scoring dimension (`key` and `title` as in the `categories` array). -/
structure Category where
  key : String
  title : String
deriving DecidableEq, Repr

/-- The `brandAlignment` dimension. -/
def brandAlignmentCat : Category :=
  { key := "brandAlignment", title := "Brand Alignment" }

/-- The `conversionEffectiveness` dimension. -/
def conversionCat : Category :=
  { key := "conversionEffectiveness", title := "Conversion Effectiveness" }

/-- The `seoAiBestPractices` dimension. -/
def seoCat : Category :=
  { key := "seoAiBestPractices", title := "SEO and AI Best Practices" }

/-- The fixed category list of `analyzeConsolidatedStreaming`. -/
def categoriesList : List Category :=
  [brandAlignmentCat, conversionCat, seoCat]

/-- Parsed JSON shape of one scoring answer (both fields optional, as the
duck-typed source treats them). -/
structure CatJson where
  score : Option Int
  summary : Option String
deriving DecidableEq, Repr

/-- `{score, summary}` record of one dimension. -/
structure CatScore where
  score : Int
  summary : String
deriving DecidableEq, Repr

/-- Outcome of one `scoreCategory` invocation: `thrown` models the promise
rejecting (caught by the orchestrator), `returned res` models
`tryOpenAIChatJson` resolving with `res` (`none` = every model failed). -/
inductive CatOutcome where
  | thrown (msg : String)
  | returned (res : Option CatJson)
deriving DecidableEq, Repr

/-- Tail of `scoreCategory`: `{score: result.score || 0, summary:
result.summary || `Unable to analyze ${title}`}` over `result = parsed || {}`. -/
def scoreCategoryResult (c : Category) (res : Option CatJson) : CatScore :=
  let j := res.getD { score := none, summary := none }
  { score := j.score.getD 0,
    summary :=
      match j.summary with
      | some s => if s = "" then "Unable to analyze " ++ c.title else s
      | none => "Unable to analyze " ++ c.title }

/-- The catch-branch fallback `{score: 0, summary: `Unable to analyze
${category.title}`}` of the orchestrator. -/
def fallbackCatScore (c : Category) : CatScore :=
  { score := 0, summary := "Unable to analyze " ++ c.title }

/-- `results[category.key]` after all three promises settle. -/
def resultOf (outcome : String → CatOutcome) (c : Category) : CatScore :=
  match outcome c.key with
  | .thrown _ => fallbackCatScore c
  | .returned res => scoreCategoryResult c res

/-- Executive-summary handling: keep the parsed `executiveSummary` field only
when truthy, else the fixed failure string. -/
def execSummaryOf (o : Option (Option String)) : String :=
  match o with
  | some (some s) => if s = "" then "Unable to generate executive summary" else s
  | _ => "Unable to generate executive summary"

/-- The `ConsolidatedAnalysis` payload of the `complete` event. The
`results[key] || placeholder` defaults of the source never fire because every
category writes its slot in both the try and the catch branch; `resultOf` is
exactly that slot. -/
structure FinalAnalysis where
  executiveSummary : String
  inferredBrandPositioning : String
  brandAlignment : CatScore
  conversionEffectiveness : CatScore
  seoAiBestPractices : CatScore
  problematicContent : List String
deriving DecidableEq, Repr

/-- The analysis carried by the `complete` event. -/
def finalAnalysisOf (brandPos : String) (outcome : String → CatOutcome)
    (execOutcome : Option (Option String)) : FinalAnalysis :=
  { executiveSummary := execSummaryOf execOutcome,
    inferredBrandPositioning := brandPos,
    brandAlignment := resultOf outcome brandAlignmentCat,
    conversionEffectiveness := resultOf outcome conversionCat,
    seoAiBestPractices := resultOf outcome seoCat,
    problematicContent := [] }

/-- Entry of the final analysis for a dimension key. -/
def dimensionEntry (fa : FinalAnalysis) (k : String) : Option CatScore :=
  if k = "brandAlignment" then some fa.brandAlignment
  else if k = "conversionEffectiveness" then some fa.conversionEffectiveness
  else if k = "seoAiBestPractices" then some fa.seoAiBestPractices
  else none

/-- Tagged events pushed through `onUpdate` / the route's SSE stream (payloads
reduced to the fields the properties quantify over). -/
inductive Event where
  | start
  | initialEv (topProducts : List TopProduct)
  | productsFetched (count : Nat)
  | randomization (order : List String)
  | progress (step total : Nat)
  | categoryComplete (key : String) (score : Int) (summary : String)
  | categoryError (key : String) (error : String)
  | complete (analysis : FinalAnalysis)
  | errorEv (msg : String)
deriving DecidableEq, Repr

/-- Event emitted when the promise of category `c` settles. -/
def catEvent (outcome : String → CatOutcome) (c : Category) : Event :=
  match outcome c.key with
  | .thrown msg => .categoryError c.key msg
  | .returned res =>
    .categoryComplete c.key (scoreCategoryResult c res).score (scoreCategoryResult c res).summary

/-- Event trace of `analyzeConsolidatedStreaming`: randomization notice,
initial progress, one category event per settled promise in completion order,
the executive-summary progress notice, and the final `complete` event. The
page and digital-source contents only shape the oracle prompts, never the
events. -/
def analyzeConsolidatedStreamingEvents (pageContents : List PageContent)
    (digitalSources : List DigitalSource) (brandPos : String)
    (shuffled complOrder : List Category) (outcome : String → CatOutcome)
    (execOutcome : Option (Option String)) : List Event :=
  let _ := scoringWebsiteContent pageContents
  let _ := scoringDigitalContent digitalSources
  [.randomization (shuffled.map Category.title), .progress 1 4] ++
    complOrder.map (catEvent outcome) ++
    [.progress 4 4, .complete (finalAnalysisOf brandPos outcome execOutcome)]

/-- Homepage fetch result: raw HTML (used as the digital source) plus the
anchors JSDOM extracts from it. -/
structure Homepage where
  html : String
  anchors : List Anchor
deriving Repr

/-- External world of one streaming-route request: the target url, the
homepage fetch, the per-url collection-page and product-page fetches, and the
four oracle outcomes. -/
structure Env where
  targetUrl : String
  homepage : Except String Homepage
  collectionPage : String → Except String (List Anchor)
  rank : RankOutcome
  productPage : String → Except String String
  positioning : Option (Option String)
  catOutcome : String → CatOutcome
  execOutcome : Option (Option String)

/-- Links extracted from the homepage. -/
def homepageLinks (hp : Homepage) : List Link :=
  parseLinks hp.anchors

/-- Collection groups: fetch each picked collection, keep the fulfilled ones
(`Promise.allSettled` + fulfilled filter), extract and dedup its product
links. -/
def collectionGroupsOf (env : Env) (hp : Homepage) : List CollectionGroup :=
  (pickCollections (homepageLinks hp)).filterMap fun col =>
    match env.collectionPage col.url with
    | .ok anchors => some { collection := col, products := pickProducts (parseLinks anchors) }
    | .error _ => none

/-- Flattened product candidates `collectionGroups.flatMap(g => g.products)`. -/
def productLinksOf (env : Env) (hp : Homepage) : List Link :=
  (collectionGroupsOf env hp).flatMap CollectionGroup.products

/-- `inferBrandPositioning` result: `result?.positioning || 'Unable to infer
brand positioning'`. -/
def brandPosOf (env : Env) : String :=
  match env.positioning with
  | some (some s) => if s = "" then "Unable to infer brand positioning" else s
  | _ => "Unable to infer brand positioning"

/-- Product-page contents: fetch every validated product in parallel and keep
the fulfilled ones. -/
def pageContentsOf (env : Env) (validated : List TopProduct) : List PageContent :=
  validated.filterMap fun p =>
    match env.productPage p.url with
    | .ok html => some { url := p.url, pageType := "product", content := html }
    | .error _ => none

/-- Event trace of the streaming route `GET` body, paired with a flag telling
whether the ranking oracle was consulted. A throwing homepage fetch reaches
the outer catch, which emits the error event; collection and product fetch
failures are settled individually and never throw. -/
def routeEvents (env : Env) (shuffled complOrder : List Category) : List Event × Bool :=
  match env.homepage with
  | .error msg => ([.start, .errorEv msg], false)
  | .ok hp =>
    let productLinks := productLinksOf env hp
    if productLinks.isEmpty then
      ([.start, .errorEv "No product URLs found on this website"], false)
    else
      let validated := validatedTopProducts productLinks env.rank
      let pcs := pageContentsOf env validated
      if pcs.isEmpty then
        ([.start, .initialEv validated,
          .errorEv "No product pages could be analyzed successfully"], true)
      else
        ([.start, .initialEv validated, .productsFetched pcs.length] ++
          analyzeConsolidatedStreamingEvents pcs
            [createDigitalSource "website" env.targetUrl hp.html env.targetUrl]
            (brandPosOf env) shuffled complOrder env.catOutcome env.execOutcome, true)

/-- Is the event a run-terminating event (`complete` or `error`)? -/
def isTerminalEvent : Event → Bool
  | .complete _ => true
  | .errorEv _ => true
  | _ => false

/-- Is the event the final `complete` event? -/
def isCompleteEvent : Event → Bool
  | .complete _ => true
  | _ => false

/-- Dimension key of a `category_complete` / `category_error` event. -/
def catKeyOf : Event → Option String
  | .categoryComplete k _ _ => some k
  | .categoryError k _ => some k
  | _ => none

/-- Is the event a category event (of either kind) for dimension `k`? -/
def isCatEventFor (k : String) (e : Event) : Bool :=
  match catKeyOf e with
  | some k2 => k2 == k
  | none => false

/-- Is the event a `category_error` for dimension `k`? -/
def isCatErrorFor (k : String) : Event → Bool
  | .categoryError k2 _ => k2 == k
  | _ => false

/-- Is the event a `category_complete` for dimension `k`? -/
def isCatCompleteFor (k : String) : Event → Bool
  | .categoryComplete k2 _ _ => k2 == k
  | _ => false

theorem catKeyOf_catEvent (outcome : String → CatOutcome) (c : Category) :
    catKeyOf (catEvent outcome c) = some c.key := by
  cases h : outcome c.key <;> simp [catEvent, h, catKeyOf]

theorem isTerminalEvent_catEvent (outcome : String → CatOutcome) (c : Category) :
    isTerminalEvent (catEvent outcome c) = false := by
  cases h : outcome c.key <;> simp [catEvent, h, isTerminalEvent]

theorem countP_catEvents_key (outcome : String → CatOutcome) (k : String)
    (l : List Category) :
    (l.map (catEvent outcome)).countP (isCatEventFor k) =
      (l.map Category.key).count k := by
  rw [List.countP_map, List.count, List.countP_map]
  refine List.countP_congr fun c _ => ?_
  simp [Function.comp, isCatEventFor, catKeyOf_catEvent]

theorem count_key_categoriesList_le_one (k : String) :
    ((categoriesList.map Category.key).count k) ≤ 1 := by
  have hnd : (categoriesList.map Category.key).Nodup := by decide
  exact List.nodup_iff_count_le_one.mp hnd k

theorem countP_terminal_catEvents (outcome : String → CatOutcome)
    (l : List Category) :
    (l.map (catEvent outcome)).countP isTerminalEvent = 0 := by
  rw [List.countP_map]
  refine List.countP_eq_zero.mpr fun c _ => ?_
  simp [Function.comp, isTerminalEvent_catEvent]

theorem routeEvents_cases (env : Env) (shuffled complOrder : List Category) :
    (∃ m, (routeEvents env shuffled complOrder).1 = [.start, .errorEv m]) ∨
    (∃ v m, (routeEvents env shuffled complOrder).1 = [.start, .initialEv v, .errorEv m]) ∨
    (∃ v n, (routeEvents env shuffled complOrder).1 =
      [.start, .initialEv v, .productsFetched n,
        .randomization (shuffled.map Category.title), .progress 1 4] ++
        complOrder.map (catEvent env.catOutcome) ++
        [.progress 4 4,
          .complete (finalAnalysisOf (brandPosOf env) env.catOutcome env.execOutcome)]) := by
  unfold routeEvents
  cases env.homepage with
  | error msg => exact Or.inl ⟨msg, rfl⟩
  | ok hp =>
    dsimp only
    split
    · exact Or.inl ⟨_, rfl⟩
    · split
      · exact Or.inr (Or.inl ⟨_, _, rfl⟩)
      · refine Or.inr (Or.inr
          ⟨validatedTopProducts (productLinksOf env hp) env.rank,
            (pageContentsOf env (validatedTopProducts (productLinksOf env hp) env.rank)).length,
            ?_⟩)
        simp [analyzeConsolidatedStreamingEvents]

/-- Did a scoring call reject with an exception? -/
def isThrown : CatOutcome → Bool
  | .thrown _ => true
  | .returned _ => false

theorem countP_catError_map (outcome : String → CatOutcome) (complOrder : List Category)
    (hperm : complOrder.Perm categoriesList) (c : Category) (hc : c ∈ categoriesList) :
    (complOrder.map (catEvent outcome)).countP (isCatErrorFor c.key) =
      (if isThrown (outcome c.key) then 1 else 0) := by
  rw [List.countP_map, hperm.countP_eq]
  fin_cases hc <;>
    cases hB : outcome "brandAlignment" <;>
    cases hC : outcome "conversionEffectiveness" <;>
    cases hS : outcome "seoAiBestPractices" <;>
    simp [categoriesList, List.countP_cons, Function.comp, catEvent, hB, hC, hS,
      isCatErrorFor, isThrown, brandAlignmentCat, conversionCat, seoCat]

theorem countP_catComplete_map (outcome : String → CatOutcome) (complOrder : List Category)
    (hperm : complOrder.Perm categoriesList) (c : Category) (hc : c ∈ categoriesList) :
    (complOrder.map (catEvent outcome)).countP (isCatCompleteFor c.key) =
      (if isThrown (outcome c.key) then 0 else 1) := by
  rw [List.countP_map, hperm.countP_eq]
  fin_cases hc <;>
    cases hB : outcome "brandAlignment" <;>
    cases hC : outcome "conversionEffectiveness" <;>
    cases hS : outcome "seoAiBestPractices" <;>
    simp [categoriesList, List.countP_cons, Function.comp, catEvent, hB, hC, hS,
      isCatCompleteFor, isThrown, brandAlignmentCat, conversionCat, seoCat]

theorem countP_isSome_catEvents (outcome : String → CatOutcome) (l : List Category) :
    (l.map (catEvent outcome)).countP (fun e => (catKeyOf e).isSome) = l.length := by
  rw [List.countP_map]
  rw [List.countP_eq_length]
  intro c _
  simp [Function.comp, catKeyOf_catEvent]

theorem countP_isComplete_catEvents (outcome : String → CatOutcome) (l : List Category) :
    (l.map (catEvent outcome)).countP isCompleteEvent = 0 := by
  rw [List.countP_map]
  refine List.countP_eq_zero.mpr fun c _ => ?_
  cases h : outcome c.key <;> simp [Function.comp, catEvent, h, isCompleteEvent]

theorem dimensionEntry_finalAnalysis (bp : String) (outcome : String → CatOutcome)
    (execOutcome : Option (Option String)) (c : Category) (hc : c ∈ categoriesList) :
    dimensionEntry (finalAnalysisOf bp outcome execOutcome) c.key = some (resultOf outcome c) := by
  fin_cases hc <;>
    simp [dimensionEntry, finalAnalysisOf, brandAlignmentCat, conversionCat, seoCat]

/-- C4: every run emits exactly one terminating event (`complete` or `error`,
never zero, never both), and each dimension key accounts for at most one
`category_complete` / `category_error` event. -/
theorem c4_one_terminal_event_per_run (env : Env) (shuffled complOrder : List Category)
    (k : String) (hperm : complOrder.Perm categoriesList) :
    (routeEvents env shuffled complOrder).1.countP isTerminalEvent = 1 ∧
    (routeEvents env shuffled complOrder).1.countP (isCatEventFor k) ≤ 1 := by
  have hkey : (complOrder.map (catEvent env.catOutcome)).countP (isCatEventFor k) ≤ 1 := by
    rw [countP_catEvents_key, (hperm.map Category.key).count_eq]
    exact count_key_categoriesList_le_one k
  have hterm := countP_terminal_catEvents env.catOutcome complOrder
  rcases routeEvents_cases env shuffled complOrder with ⟨m, hev⟩ | ⟨v, m, hev⟩ | ⟨v, n, hev⟩
  · rw [hev]
    constructor
    · simp [List.countP_cons, isTerminalEvent]
    · simp [List.countP_cons, isCatEventFor, catKeyOf]
  · rw [hev]
    constructor
    · simp [List.countP_cons, isTerminalEvent]
    · simp [List.countP_cons, isCatEventFor, catKeyOf]
  · rw [hev]
    constructor
    · simp [List.countP_append, List.countP_cons, isTerminalEvent, hterm]
    · simp only [List.countP_append, List.countP_cons, List.countP_nil]
      have h1 : isCatEventFor k .start = false := rfl
      have h2 : isCatEventFor k (.initialEv v) = false := rfl
      have h3 : isCatEventFor k (.productsFetched n) = false := rfl
      have h4 : isCatEventFor k (.randomization (shuffled.map Category.title)) = false := rfl
      have h5 : isCatEventFor k (.progress 1 4) = false := rfl
      have h6 : isCatEventFor k (.progress 4 4) = false := rfl
      have h7 : isCatEventFor k
          (.complete (finalAnalysisOf (brandPosOf env) env.catOutcome env.execOutcome)) =
          false := rfl
      rw [h1, h2, h3, h4, h5, h6, h7]
      simp only [if_neg Bool.false_ne_true]
      omega

/-- C5: when the flattened candidate list is empty the route emits exactly the
start event followed by the one error event with the no-product-urls reason,
and halts with the ranking oracle never consulted (`false` flag). -/
theorem c5_no_candidates_halts_before_oracle (env : Env)
    (shuffled complOrder : List Category) (hp : Homepage)
    (hok : env.homepage = .ok hp) (hempty : productLinksOf env hp = []) :
    routeEvents env shuffled complOrder =
      ([.start, .errorEv "No product URLs found on this website"], false) := by
  unfold routeEvents
  rw [hok]
  simp [hempty]

/-- Environment whose homepage has no links at all. -/
def envNoProducts : Env :=
  { targetUrl := "https://s.com"
    homepage := .ok { html := "<html></html>", anchors := [] }
    collectionPage := fun _ => .error "unreachable"
    rank := none
    productPage := fun _ => .error "unreachable"
    positioning := none
    catOutcome := fun _ => .returned none
    execOutcome := none }

/-- Witness for C5 at a homepage with no anchors. -/
theorem c5_witness :
    routeEvents envNoProducts categoriesList categoriesList =
      ([.start, .errorEv "No product URLs found on this website"], false) :=
  c5_no_candidates_halts_before_oracle envNoProducts categoriesList categoriesList
    { html := "<html></html>", anchors := [] } rfl (by decide)

/-- C2 (amended): when the candidate set is non-empty but the ranking oracle
fails entirely, the validated selection is empty — there is no first-10
fallback — and the run goes on to emit the
`No product pages could be analyzed successfully` error event. -/
theorem c2_oracle_failure_empties_selection (env : Env)
    (shuffled complOrder : List Category) (hp : Homepage)
    (hok : env.homepage = .ok hp)
    (hne : (productLinksOf env hp).isEmpty = false) (hfail : env.rank = none) :
    validatedTopProducts (productLinksOf env hp) env.rank = [] ∧
    (routeEvents env shuffled complOrder).1 =
      [.start, .initialEv [],
        .errorEv "No product pages could be analyzed successfully"] := by
  have hval : validatedTopProducts (productLinksOf env hp) env.rank = [] := by
    rw [hfail]
    rfl
  refine ⟨hval, ?_⟩
  unfold routeEvents
  rw [hok]
  simp [hne, hval, pageContentsOf]

/-- Environment with one collection and one product candidate where every
oracle model fails (`tryOpenAIChatJson` returns `result: null`). -/
def envOracleDown : Env :=
  { targetUrl := "https://s.com"
    homepage := .ok
      { html := "<html></html>"
        anchors := [{ href := "https://s.com/shop/all", textContent := "Shop",
                      ariaLabel := none, titleAttr := none }] }
    collectionPage := fun _ =>
      .ok [{ href := "https://s.com/products/p1", textContent := "P1",
             ariaLabel := none, titleAttr := none }]
    rank := none
    productPage := fun _ => .ok "<p>product</p>"
    positioning := none
    catOutcome := fun _ => .returned none
    execOutcome := none }

/-- Witness for C2 on the concrete oracle-outage environment. -/
theorem c2_witness :
    validatedTopProducts
        (productLinksOf envOracleDown
          { html := "<html></html>"
            anchors := [{ href := "https://s.com/shop/all", textContent := "Shop",
                          ariaLabel := none, titleAttr := none }] })
        envOracleDown.rank = [] ∧
    (routeEvents envOracleDown categoriesList categoriesList).1 =
      [.start, .initialEv [],
        .errorEv "No product pages could be analyzed successfully"] :=
  c2_oracle_failure_empties_selection envOracleDown categoriesList categoriesList
    { html := "<html></html>"
      anchors := [{ href := "https://s.com/shop/all", textContent := "Shop",
                    ariaLabel := none, titleAttr := none }] }
    rfl (by decide) rfl

/-- Counterexample to C2 as stated: the candidate set is non-empty (it holds
one product link), the oracle call fails entirely, and the validated selection
handed downstream is empty — not the first 10 candidates. -/
theorem c2_counterexample :
    productLinksOf envOracleDown
        { html := "<html></html>"
          anchors := [{ href := "https://s.com/shop/all", textContent := "Shop",
                        ariaLabel := none, titleAttr := none }] } =
      [{ url := "https://s.com/products/p1", text := "P1" }] ∧
    validatedTopProducts
        [{ url := "https://s.com/products/p1", text := "P1" }] none = [] := by
  constructor
  · decide
  · decide

/-- C3 (amended): a failing dimension never cancels its siblings or the run —
all three dimensions still emit their event and the `complete` event is still
emitted — and its entry in the final analysis is the
`{score: 0, summary: 'Unable to analyze <Title>'}` placeholder; but the event
kind depends on the failure mode: a thrown scoring call yields one
`category_error`, while an oracle exhausted of models (typed `result: null`
failure) yields a `category_complete` carrying the placeholder score 0. -/
theorem c3_dimension_failure_isolated (pc : List PageContent) (ds : List DigitalSource)
    (bp : String) (shuffled complOrder : List Category) (outcome : String → CatOutcome)
    (execOutcome : Option (Option String)) (c : Category) (msg : String)
    (hperm : complOrder.Perm categoriesList) (hc : c ∈ categoriesList) :
    (outcome c.key = .thrown msg →
      (analyzeConsolidatedStreamingEvents pc ds bp shuffled complOrder outcome
          execOutcome).countP (isCatErrorFor c.key) = 1 ∧
      dimensionEntry (finalAnalysisOf bp outcome execOutcome) c.key =
        some (fallbackCatScore c) ∧
      (analyzeConsolidatedStreamingEvents pc ds bp shuffled complOrder outcome
          execOutcome).countP isCompleteEvent = 1 ∧
      (analyzeConsolidatedStreamingEvents pc ds bp shuffled complOrder outcome
          execOutcome).countP (fun e => (catKeyOf e).isSome) = 3) ∧
    (outcome c.key = .returned none →
      (analyzeConsolidatedStreamingEvents pc ds bp shuffled complOrder outcome
          execOutcome).countP (isCatErrorFor c.key) = 0 ∧
      (analyzeConsolidatedStreamingEvents pc ds bp shuffled complOrder outcome
          execOutcome).countP (isCatCompleteFor c.key) = 1 ∧
      dimensionEntry (finalAnalysisOf bp outcome execOutcome) c.key =
        some (fallbackCatScore c) ∧
      (analyzeConsolidatedStreamingEvents pc ds bp shuffled complOrder outcome
          execOutcome).countP isCompleteEvent = 1 ∧
      (analyzeConsolidatedStreamingEvents pc ds bp shuffled complOrder outcome
          execOutcome).countP (fun e => (catKeyOf e).isSome) = 3) := by
  have hsib : (analyzeConsolidatedStreamingEvents pc ds bp shuffled complOrder outcome
      execOutcome).countP (fun e => (catKeyOf e).isSome) = 3 := by
    simp only [analyzeConsolidatedStreamingEvents, List.countP_append, List.countP_cons,
      List.countP_nil, countP_isSome_catEvents, hperm.length_eq]
    simp [catKeyOf, categoriesList]
  have hcomp : (analyzeConsolidatedStreamingEvents pc ds bp shuffled complOrder outcome
      execOutcome).countP isCompleteEvent = 1 := by
    simp only [analyzeConsolidatedStreamingEvents, List.countP_append, List.countP_cons,
      List.countP_nil, countP_isComplete_catEvents]
    simp [isCompleteEvent]
  constructor
  · intro h
    refine ⟨?_, ?_, hcomp, hsib⟩
    · simp only [analyzeConsolidatedStreamingEvents, List.countP_append, List.countP_cons,
        List.countP_nil, countP_catError_map outcome complOrder hperm c hc, h]
      simp [isThrown, isCatErrorFor]
    · rw [dimensionEntry_finalAnalysis bp outcome execOutcome c hc]
      simp [resultOf, h]
  · intro h
    refine ⟨?_, ?_, ?_, hcomp, hsib⟩
    · simp only [analyzeConsolidatedStreamingEvents, List.countP_append, List.countP_cons,
        List.countP_nil, countP_catError_map outcome complOrder hperm c hc, h]
      simp [isThrown, isCatErrorFor]
    · simp only [analyzeConsolidatedStreamingEvents, List.countP_append, List.countP_cons,
        List.countP_nil, countP_catComplete_map outcome complOrder hperm c hc, h]
      simp [isThrown, isCatCompleteFor]
    · rw [dimensionEntry_finalAnalysis bp outcome execOutcome c hc]
      simp [resultOf, h, scoreCategoryResult, fallbackCatScore]

/-- Scoring outcomes where the brand-alignment call throws and the other two
dimensions succeed. -/
def outcomeBrandThrown : String → CatOutcome := fun k =>
  if k = "brandAlignment" then .thrown "boom"
  else .returned (some { score := some 70, summary := some "ok" })

/-- Witness for C3: with a thrown brand-alignment call, one category error for
that key, the placeholder entry, and an uncancelled remainder of the run. -/
theorem c3_witness :
    (analyzeConsolidatedStreamingEvents [] [] "bp" categoriesList categoriesList
        outcomeBrandThrown (some (some "sum"))).countP
        (isCatErrorFor brandAlignmentCat.key) = 1 ∧
    dimensionEntry (finalAnalysisOf "bp" outcomeBrandThrown (some (some "sum")))
        brandAlignmentCat.key = some (fallbackCatScore brandAlignmentCat) ∧
    (analyzeConsolidatedStreamingEvents [] [] "bp" categoriesList categoriesList
        outcomeBrandThrown (some (some "sum"))).countP isCompleteEvent = 1 ∧
    (analyzeConsolidatedStreamingEvents [] [] "bp" categoriesList categoriesList
        outcomeBrandThrown (some (some "sum"))).countP
        (fun e => (catKeyOf e).isSome) = 3 :=
  (c3_dimension_failure_isolated [] [] "bp" categoriesList categoriesList
      outcomeBrandThrown (some (some "sum")) brandAlignmentCat "boom"
      (List.Perm.refl _) (by decide)).1 (by decide)

/-- Scoring outcomes where every model fails for every dimension. -/
def outcomeAllExhausted : String → CatOutcome := fun _ => .returned none

/-- Counterexample to C3 as stated: the brand-alignment oracle call fails
(every model exhausted, typed `result: null` failure), its final entry is the
score-0 placeholder, yet no `category_error` event is emitted for it — the
run emits a `category_complete` event for that dimension instead. -/
theorem c3_counterexample :
    (analyzeConsolidatedStreamingEvents [] [] "bp" categoriesList categoriesList
        outcomeAllExhausted none).countP (isCatErrorFor "brandAlignment") = 0 ∧
    (analyzeConsolidatedStreamingEvents [] [] "bp" categoriesList categoriesList
        outcomeAllExhausted none).countP (isCatCompleteFor "brandAlignment") = 1 ∧
    dimensionEntry (finalAnalysisOf "bp" outcomeAllExhausted none) "brandAlignment" =
      some { score := 0, summary := "Unable to analyze Brand Alignment" } := by
  refine ⟨?_, ?_, ?_⟩
  · decide
  · decide
  · decide

/-- Witness for C4 on the concrete oracle-outage environment. -/
theorem c4_witness :
    (routeEvents envOracleDown categoriesList categoriesList).1.countP
        isTerminalEvent = 1 ∧
    (routeEvents envOracleDown categoriesList categoriesList).1.countP
        (isCatEventFor "brandAlignment") ≤ 1 :=
  c4_one_terminal_event_per_run envOracleDown categoriesList categoriesList
    "brandAlignment" (List.Perm.refl _)
